import Mathlib

/-!
Verification of the client-side authentication script (static auth JS).

The script manipulates an origin-scoped persistent key-value store
(`localStorage`), the DOM (error toasts, navigation links), and the
`window.location` navigation target.  We embed the store as a total map
from key strings to optional value strings, the relevant page state as a
structure, and each event handler of the script as a pure state-transition
function over that structure, parameterised by the external inputs the
handler consumes (server response, user confirmation, network outcome).

Conventions:
 - `getItem s k = none` models a key absent from the store; `some v`
   models a present key with value `v` (possibly the empty string).
 - JavaScript truthiness on a `getItem` result (`null` and `""` are both
   falsy, every other string truthy) is `jsTruthy`.
 - `fetch` resolves for any completed HTTP exchange (ok or not) and
   rejects only on a network-level failure; response kinds are modelled
   by explicit inductives.
 - String length is the number of characters; the script only ever
   compares lengths against small ASCII-relevant bounds.
-/

/-- The persistent key-value store (`localStorage`): a total map from key
strings to an optional stored string. -/
def Store : Type := String → Option String

/-- `localStorage.getItem(k)`. -/
def getItem (s : Store) (k : String) : Option String := s k

/-- `localStorage.setItem(k, v)`. -/
def setItem (s : Store) (k v : String) : Store :=
  fun k' => if k' = k then some v else s k'

/-- `localStorage.removeItem(k)`. -/
def removeItem (s : Store) (k : String) : Store :=
  fun k' => if k' = k then none else s k'

/-- A store with no keys set. -/
def emptyStore : Store := fun _ => none

/-- JavaScript truthiness of a `getItem` result: `null` (absent) and the
empty string are falsy, every other string is truthy. -/
def jsTruthy (v : Option String) : Bool :=
  match v with
  | none => false
  | some str => !str.isEmpty

/-- The UI state produced by session bootstrap: either the logged-in
projection (`updateUIForLoggedInUser`) or the guest projection
(`updateUIForGuest`). -/
inductive UIState where
  | authenticated
  | guest
  deriving DecidableEq

/-- `checkAuthStatus` (source lines 21-32): reads `auth_token` and
`user_data` from the store and branches on `authToken && userData`
(JavaScript truthiness of both). -/
def checkAuthStatus (s : Store) : UIState :=
  if jsTruthy (getItem s "auth_token") && jsTruthy (getItem s "user_data") then
    UIState.authenticated
  else
    UIState.guest

/-- The page state a handler can affect: the persistent store, the list of
`.auth-error` toast elements currently in the form (newest first), and the
pending navigation target (`window.location.href` assignment, `none` when
no navigation happened). -/
structure Page where
  store : Store
  errors : List String
  nav : Option String

/-- `showAuthError` (source lines 278-315): removes every existing
`.auth-error` element, then inserts a single new error element carrying
`message` at the head of the form. -/
def showAuthError (_errors : List String) (message : String) : List String :=
  [message]

/-- Outcome of the `fetch('/login', ...)` round trip as seen by the login
submit handler: a completed response that is ok (carrying the optional
`token`, serialised `user`, and `redirect` fields of the parsed JSON), a
completed response that is not ok (carrying the optional `message`
field), or a network-level failure (the `catch` path). -/
inductive LoginResponse where
  | ok (token : Option String) (user : Option String) (redirect : Option String)
  | rejected (message : Option String)
  | networkError
  deriving DecidableEq

/-- The login submit handler (source lines 97-138), after the response is
known.  On `response.ok`: stores `auth_token` if `result.token` is truthy,
stores `user_data` if `result.user` is truthy, stores `remember_me` when
the remember checkbox is present and checked, then navigates to
`result.redirect || '/home'`.  Otherwise shows a single auth error. -/
def handleLoginSubmit (p : Page) (r : LoginResponse) (rememberChecked : Bool) : Page :=
  match r with
  | LoginResponse.ok token user redirect =>
      let s1 := if jsTruthy token then setItem p.store "auth_token" (token.getD "") else p.store
      let s2 := if jsTruthy user then setItem s1 "user_data" (user.getD "") else s1
      let s3 := if rememberChecked then setItem s2 "remember_me" "true" else s2
      { p with store := s3,
               nav := some (if jsTruthy redirect then redirect.getD "" else "/home") }
  | LoginResponse.rejected message =>
      { p with errors :=
          showAuthError p.errors (if jsTruthy message then message.getD "" else "Login failed") }
  | LoginResponse.networkError =>
      { p with errors := showAuthError p.errors "Network error. Please try again." }

/-- Whether a login attempt failed (non-ok response or network error). -/
def isLoginFailure : LoginResponse → Bool
  | LoginResponse.ok _ _ _ => false
  | LoginResponse.rejected _ => true
  | LoginResponse.networkError => true

/-- The session-pairing invariant claimed by the specification: the
`auth_token` and `user_data` keys are both set or both absent. -/
def bothOrNeither (s : Store) : Prop :=
  (s "auth_token").isSome = (s "user_data").isSome

/-- A login response whose ok payload carries token and user together:
either both truthy or both falsy/absent.  Failure responses are trivially
balanced because they write nothing. -/
def balancedLoginResponse : LoginResponse → Prop
  | LoginResponse.ok token user _ => jsTruthy token = jsTruthy user
  | LoginResponse.rejected _ => True
  | LoginResponse.networkError => True

/-- Outcome of a `fetch` whose response body is ignored (the logout
request): the exchange completed with an ok status, completed with a
non-ok status, or failed at the network level (promise rejection). -/
inductive FetchOutcome where
  | resolvedOk
  | resolvedNotOk
  | networkError
  deriving DecidableEq

/-- The logout click handler (source lines 200-221).  Nothing happens
without confirmation.  On confirmation the handler awaits
`fetch('/logout')` inside the `try`: when the fetch resolves (ok or not)
it removes `auth_token`, `user_data` and `remember_me` and navigates to
`/`; when the fetch rejects, control jumps to the `catch`, which only
logs, so no key is removed and no navigation happens. -/
def handleLogoutClick (p : Page) (confirmed : Bool) (f : FetchOutcome) : Page :=
  if confirmed then
    match f with
    | FetchOutcome.networkError => p
    | _ =>
        { p with
            store := removeItem (removeItem (removeItem p.store "auth_token") "user_data")
                       "remember_me",
            nav := some "/" }
  else p

/-- Client-side outcome of a registration submit before/at the network
boundary: rejected by a client-side validation check (no request issued),
or submitted to the server. -/
inductive RegisterOutcome where
  | reject (message : String)
  | submitToServer
  deriving DecidableEq

/-- Whether the registration handler issued a network request. -/
def registerMakesRequest : RegisterOutcome → Bool
  | RegisterOutcome.reject _ => false
  | RegisterOutcome.submitToServer => true

/-- The client-side validation part of the registration submit handler
(source lines 144-167): first the password/confirm equality check, then
the minimum-length check, and only if both pass is the request sent. -/
def handleRegisterSubmit (password confirmPassword : String) : RegisterOutcome :=
  if password ≠ confirmPassword then
    RegisterOutcome.reject "Passwords do not match"
  else if password.length < 6 then
    RegisterOutcome.reject "Password must be at least 6 characters long"
  else
    RegisterOutcome.submitToServer

/-- The character class of the regex `[a-z]`. -/
def isAsciiLower (c : Char) : Bool :=
  decide (97 ≤ c.toNat) && decide (c.toNat ≤ 122)

/-- The character class of the regex `[A-Z]`. -/
def isAsciiUpper (c : Char) : Bool :=
  decide (65 ≤ c.toNat) && decide (c.toNat ≤ 90)

/-- The character class of the regex `[0-9]`. -/
def isAsciiDigit (c : Char) : Bool :=
  decide (48 ≤ c.toNat) && decide (c.toNat ≤ 57)

/-- `password.length >= 8` (source line 356). -/
def lengthOk8 (password : String) : Bool :=
  decide (8 ≤ password.length)

/-- `/[a-z]/.test(password)` (source line 363). -/
def hasLower (password : String) : Bool :=
  password.data.any isAsciiLower

/-- `/[A-Z]/.test(password)` (source line 370). -/
def hasUpper (password : String) : Bool :=
  password.data.any isAsciiUpper

/-- `/[0-9]/.test(password)` (source line 377). -/
def hasDigit (password : String) : Bool :=
  password.data.any isAsciiDigit

/-- `/[^A-Za-z0-9]/.test(password)` (source line 384). -/
def hasSpecial (password : String) : Bool :=
  password.data.any (fun c => !(isAsciiUpper c || isAsciiLower c || isAsciiDigit c))

/-- The record returned by `checkPasswordStrength`. -/
structure StrengthResult where
  score : Nat
  maxScore : Nat
  feedback : String
  deriving DecidableEq

/-- `checkPasswordStrength` (source lines 351-395): starts from strength 0
and an empty feedback list, tests the five conditions in order (length,
lowercase, uppercase, digit, special), incrementing the strength or
appending the category name, and returns the score, the fixed maximum 5,
and either `Add: ` followed by the comma-joined missing categories or
`Strong password!`. -/
def checkPasswordStrength (password : String) : StrengthResult :=
  let strength1 : Nat := if lengthOk8 password then 1 else 0
  let feedback1 : List String := if lengthOk8 password then [] else ["At least 8 characters"]
  let strength2 := if hasLower password then strength1 + 1 else strength1
  let feedback2 := if hasLower password then feedback1 else feedback1 ++ ["Lowercase letters"]
  let strength3 := if hasUpper password then strength2 + 1 else strength2
  let feedback3 := if hasUpper password then feedback2 else feedback2 ++ ["Uppercase letters"]
  let strength4 := if hasDigit password then strength3 + 1 else strength3
  let feedback4 := if hasDigit password then feedback3 else feedback3 ++ ["Numbers"]
  let strength5 := if hasSpecial password then strength4 + 1 else strength4
  let feedback5 := if hasSpecial password then feedback4 else feedback4 ++ ["Special characters"]
  { score := strength5,
    maxScore := 5,
    feedback :=
      if 0 < feedback5.length then "Add: " ++ String.intercalate ", " feedback5
      else "Strong password!" }

/-- The five tested conditions paired with the category name each pushes
to the feedback list when it fails, in source order. -/
def strengthChecks (password : String) : List (Bool × String) :=
  [(lengthOk8 password, "At least 8 characters"),
   (hasLower password, "Lowercase letters"),
   (hasUpper password, "Uppercase letters"),
   (hasDigit password, "Numbers"),
   (hasSpecial password, "Special characters")]

/-- The number of satisfied conditions among the five. -/
def satisfiedCount (password : String) : Nat :=
  ((strengthChecks password).filter (fun bc => bc.1)).length

/-- The names of the failed categories, in source order. -/
def missingCategories (password : String) : List String :=
  ((strengthChecks password).filter (fun bc => !bc.1)).map (fun bc => bc.2)

/-- The user's answer to the inactivity confirmation prompt. -/
inductive PromptChoice where
  | stayLoggedIn
  | logOut
  deriving DecidableEq

/-- Observable effect of a firing of the inactivity countdown. -/
structure InactivityStep where
  prompted : Bool
  store : Store
  nav : Option String
  timerRestarted : Bool

/-- `logoutDueToInactivity` (source lines 433-443): fires when the
countdown elapses.  Only when `localStorage.getItem('auth_token')` is
truthy is the confirmation prompt shown; confirming resets the timer,
declining removes `auth_token` and `user_data` and navigates to
`/login?timeout=true`.  With no truthy token nothing happens. -/
def logoutDueToInactivity (s : Store) (choice : PromptChoice) : InactivityStep :=
  if jsTruthy (getItem s "auth_token") then
    match choice with
    | PromptChoice.stayLoggedIn =>
        { prompted := true, store := s, nav := none, timerRestarted := true }
    | PromptChoice.logOut =>
        { prompted := true,
          store := removeItem (removeItem s "auth_token") "user_data",
          nav := some "/login?timeout=true",
          timerRestarted := false }
  else
    { prompted := false, store := s, nav := none, timerRestarted := false }

/-- The arming guard of the inactivity subsystem (source lines 454-456):
`setupAutoLogout()` runs only when `localStorage.getItem('auth_token')`
is truthy at script initialization. -/
def autoLogoutArmed (s : Store) : Bool :=
  jsTruthy (getItem s "auth_token")

/-! ## General lemmas about the embedded primitives -/

theorem setItem_get_same (s : Store) (k v : String) : setItem s k v k = some v := by
  simp [setItem]

theorem setItem_get_other (s : Store) (k v k' : String) (h : k' ≠ k) :
    setItem s k v k' = s k' := by
  simp [setItem, h]

theorem removeItem_get_same (s : Store) (k : String) : removeItem s k k = none := by
  simp [removeItem]

theorem removeItem_get_other (s : Store) (k k' : String) (h : k' ≠ k) :
    removeItem s k k' = s k' := by
  simp [removeItem, h]

theorem jsTruthy_isSome (v : Option String) (h : jsTruthy v = true) : v.isSome = true := by
  cases v
  · simp [jsTruthy] at h
  · rfl

/-- Evaluation lemma: `checkPasswordStrength` returns the satisfied-count
as its score, the fixed maximum 5, and the feedback string determined by
the list of missing categories. -/
theorem checkPasswordStrength_eval (p : String) :
    checkPasswordStrength p =
      { score := satisfiedCount p, maxScore := 5,
        feedback :=
          if missingCategories p = [] then "Strong password!"
          else "Add: " ++ String.intercalate ", " (missingCategories p) } := by
  unfold checkPasswordStrength satisfiedCount missingCategories strengthChecks
  cases h1 : lengthOk8 p <;> cases h2 : hasLower p <;> cases h3 : hasUpper p <;>
    cases h4 : hasDigit p <;> cases h5 : hasSpecial p <;>
      simp [h1, h2, h3, h4, h5, String.intercalate]

/-- The score is the sum of the indicators of the five conditions. -/
theorem checkPasswordStrength_score_eq (p : String) :
    (checkPasswordStrength p).score =
      (lengthOk8 p).toNat + (hasLower p).toNat + (hasUpper p).toNat +
        (hasDigit p).toNat + (hasSpecial p).toNat := by
  unfold checkPasswordStrength
  cases h1 : lengthOk8 p <;> cases h2 : hasLower p <;> cases h3 : hasUpper p <;>
    cases h4 : hasDigit p <;> cases h5 : hasSpecial p <;>
      simp [h1, h2, h3, h4, h5]

/-- The feedback is the strong-password message exactly when the score is
full. -/
theorem checkPasswordStrength_strong_iff (p : String) :
    (checkPasswordStrength p).feedback = "Strong password!" ↔
      (checkPasswordStrength p).score = 5 := by
  unfold checkPasswordStrength
  cases h1 : lengthOk8 p <;> cases h2 : hasLower p <;> cases h3 : hasUpper p <;>
    cases h4 : hasDigit p <;> cases h5 : hasSpecial p <;>
      simp [h1, h2, h3, h4, h5, String.intercalate] <;> decide

/-! ## Claim theorems -/

/-- Claim C5: for every registration submission where the
confirm-credential differs from the credential or the credential is
shorter than 6 characters, the submission is rejected client-side (no
network request is issued to the registration endpoint), and a mismatch
is reported as `Passwords do not match`. -/
theorem register_rejects_invalid_client_side :
    ∀ password confirmPassword : String,
      password ≠ confirmPassword ∨ password.length < 6 →
      registerMakesRequest (handleRegisterSubmit password confirmPassword) = false ∧
      (∃ m : String, handleRegisterSubmit password confirmPassword = RegisterOutcome.reject m) ∧
      (password ≠ confirmPassword →
        handleRegisterSubmit password confirmPassword =
          RegisterOutcome.reject "Passwords do not match") := by
  intro pw c h
  by_cases hne : pw = c
  · subst hne
    have hlen : pw.length < 6 := by
      rcases h with h' | h'
      · exact absurd rfl h'
      · exact h'
    have heq : handleRegisterSubmit pw pw =
        RegisterOutcome.reject "Password must be at least 6 characters long" := by
      simp [handleRegisterSubmit, hlen]
    exact ⟨by rw [heq]; rfl, ⟨_, heq⟩, fun hcon => absurd rfl hcon⟩
  · have heq : handleRegisterSubmit pw c = RegisterOutcome.reject "Passwords do not match" := by
      simp [handleRegisterSubmit, hne]
    exact ⟨by rw [heq]; rfl, ⟨_, heq⟩, fun _ => heq⟩

theorem register_rejects_invalid_client_side_witness :
    registerMakesRequest (handleRegisterSubmit "short" "other") = false ∧
    (∃ m : String, handleRegisterSubmit "short" "other" = RegisterOutcome.reject m) ∧
    ("short" ≠ "other" →
      handleRegisterSubmit "short" "other" = RegisterOutcome.reject "Passwords do not match") :=
  register_rejects_invalid_client_side "short" "other" (Or.inl (by decide))

/-- Claim C9: when both client-side registration preconditions fail
(mismatching confirm-credential and a credential shorter than 6
characters), the mismatch check takes precedence and the reported error
is `Passwords do not match`. -/
theorem register_mismatch_precedence :
    ∀ password confirmPassword : String,
      password ≠ confirmPassword → password.length < 6 →
      handleRegisterSubmit password confirmPassword =
        RegisterOutcome.reject "Passwords do not match" := by
  intro pw c hne _
  simp [handleRegisterSubmit, hne]

theorem register_mismatch_precedence_witness :
    handleRegisterSubmit "ab" "cd" = RegisterOutcome.reject "Passwords do not match" :=
  register_mismatch_precedence "ab" "cd" (by decide) (by decide)

/-- Claim C6: `checkPasswordStrength` is a pure total function (a Lean
`def` over all strings) whose score counts the satisfied conditions among
the five, whose maximum is the fixed value 5, and whose feedback lists
exactly the missing categories joined after `Add: ` whenever any
condition fails; the empty string scores 0 with all five categories
listed as missing. -/
theorem checkPasswordStrength_score_feedback :
    ∀ password : String,
      (checkPasswordStrength password).score = satisfiedCount password ∧
      (checkPasswordStrength password).maxScore = 5 ∧
      (checkPasswordStrength password).feedback =
        (if missingCategories password = [] then "Strong password!"
         else "Add: " ++ String.intercalate ", " (missingCategories password)) ∧
      checkPasswordStrength "" =
        { score := 0, maxScore := 5,
          feedback := "Add: At least 8 characters, Lowercase letters, Uppercase letters, Numbers, Special characters" } := by
  intro password
  have h := checkPasswordStrength_eval password
  exact ⟨by rw [h], by rw [h], by rw [h], by decide⟩

/-- Claim C7: the password-strength score always lies in `[0, 5]` (it is
a natural number, so the lower bound is inherent), it is monotone
non-decreasing as more of the five categories are satisfied, and the
feedback is exactly `Strong password!` iff the score equals 5. -/
theorem checkPasswordStrength_bounds_monotone_strong :
    (∀ password : String,
        (checkPasswordStrength password).score ≤ 5 ∧
        ((checkPasswordStrength password).feedback = "Strong password!" ↔
          (checkPasswordStrength password).score = 5)) ∧
    (∀ p q : String,
        (lengthOk8 p = true → lengthOk8 q = true) →
        (hasLower p = true → hasLower q = true) →
        (hasUpper p = true → hasUpper q = true) →
        (hasDigit p = true → hasDigit q = true) →
        (hasSpecial p = true → hasSpecial q = true) →
        (checkPasswordStrength p).score ≤ (checkPasswordStrength q).score) := by
  have toNat_le_one : ∀ b : Bool, b.toNat ≤ 1 := by decide
  have toNat_mono : ∀ a b : Bool, (a = true → b = true) → a.toNat ≤ b.toNat := by
    intro a b hab
    cases a
    · exact Nat.zero_le _
    · rw [hab rfl]
  constructor
  · intro password
    constructor
    · rw [checkPasswordStrength_score_eq]
      have l1 := toNat_le_one (lengthOk8 password)
      have l2 := toNat_le_one (hasLower password)
      have l3 := toNat_le_one (hasUpper password)
      have l4 := toNat_le_one (hasDigit password)
      have l5 := toNat_le_one (hasSpecial password)
      omega
    · exact checkPasswordStrength_strong_iff password
  · intro p q hl hlo hup hdg hsp
    rw [checkPasswordStrength_score_eq, checkPasswordStrength_score_eq]
    have m1 := toNat_mono _ _ hl
    have m2 := toNat_mono _ _ hlo
    have m3 := toNat_mono _ _ hup
    have m4 := toNat_mono _ _ hdg
    have m5 := toNat_mono _ _ hsp
    omega

theorem checkPasswordStrength_bounds_monotone_strong_witness :
    (checkPasswordStrength "a").score ≤ (checkPasswordStrength "aA1=wxyz").score :=
  checkPasswordStrength_bounds_monotone_strong.2 "a" "aA1=wxyz"
    (by decide) (by decide) (by decide) (by decide) (by decide)

/-- Claim C8: the inactivity-expiry prompt is shown only when a session
token exists: a prompted step implies `auth_token` is present, the
subsystem is armed at initialization only when `auth_token` is present,
and with no `auth_token` key the countdown firing never prompts. -/
theorem inactivity_prompt_requires_token :
    (∀ (s : Store) (choice : PromptChoice),
        (logoutDueToInactivity s choice).prompted = true →
        (getItem s "auth_token").isSome = true) ∧
    (∀ s : Store, autoLogoutArmed s = true → (getItem s "auth_token").isSome = true) ∧
    (∀ (s : Store) (choice : PromptChoice),
        getItem s "auth_token" = none → (logoutDueToInactivity s choice).prompted = false) := by
  refine ⟨?_, ?_, ?_⟩
  · intro s choice h
    cases hb : jsTruthy (getItem s "auth_token")
    · unfold logoutDueToInactivity at h
      rw [hb] at h
      simp at h
    · exact jsTruthy_isSome _ hb
  · intro s h
    rw [autoLogoutArmed] at h
    exact jsTruthy_isSome _ h
  · intro s choice h
    have hb : jsTruthy (getItem s "auth_token") = false := by rw [h]; rfl
    unfold logoutDueToInactivity
    rw [hb]
    simp

theorem inactivity_prompt_requires_token_witness :
    (getItem (setItem emptyStore "auth_token" "tok3") "auth_token").isSome = true :=
  inactivity_prompt_requires_token.1 (setItem emptyStore "auth_token" "tok3")
    PromptChoice.stayLoggedIn (by decide)

/-- Claim C3: for every failed login attempt (non-ok response or network
error) the persistent store is left unchanged (in particular the session
keys `auth_token`, `user_data` and `remember_me`), no navigation occurs,
and a single error notification replacing any previous one is shown. -/
theorem login_failure_leaves_state :
    ∀ (p : Page) (r : LoginResponse) (rememberChecked : Bool),
      isLoginFailure r = true →
      (handleLoginSubmit p r rememberChecked).store = p.store ∧
      (handleLoginSubmit p r rememberChecked).nav = p.nav ∧
      ∃ m : String, (handleLoginSubmit p r rememberChecked).errors = [m] := by
  intro p r b h
  cases r with
  | ok token user redirect => simp [isLoginFailure] at h
  | rejected message => exact ⟨rfl, rfl, _, rfl⟩
  | networkError => exact ⟨rfl, rfl, _, rfl⟩

theorem login_failure_leaves_state_witness :
    (handleLoginSubmit { store := emptyStore, errors := ["stale"], nav := none }
        LoginResponse.networkError false).store =
      ({ store := emptyStore, errors := ["stale"], nav := none } : Page).store ∧
    (handleLoginSubmit { store := emptyStore, errors := ["stale"], nav := none }
        LoginResponse.networkError false).nav =
      ({ store := emptyStore, errors := ["stale"], nav := none } : Page).nav ∧
    ∃ m : String,
      (handleLoginSubmit { store := emptyStore, errors := ["stale"], nav := none }
          LoginResponse.networkError false).errors = [m] :=
  login_failure_leaves_state { store := emptyStore, errors := ["stale"], nav := none }
    LoginResponse.networkError false rfl

/-- Claim C1 counterexample: a completed ok login response carrying a
token but no user leaves `auth_token` set and `user_data` absent, so the
two keys are not written atomically: the claimed set-together/absent-
together invariant fails after this login attempt completes. -/
theorem login_partial_ok_breaks_pairing :
    (handleLoginSubmit { store := emptyStore, errors := [], nav := none }
        (LoginResponse.ok (some "tok") none none) false).store "auth_token" = some "tok" ∧
    (handleLoginSubmit { store := emptyStore, errors := [], nav := none }
        (LoginResponse.ok (some "tok") none none) false).store "user_data" = none ∧
    ¬ bothOrNeither (handleLoginSubmit { store := emptyStore, errors := [], nav := none }
        (LoginResponse.ok (some "tok") none none) false).store := by
  refine ⟨rfl, rfl, ?_⟩
  unfold bothOrNeither
  decide

/-- Claim C1 (amended): the stored session keeps token and profile
together provided the store satisfied the pairing invariant before the
attempt and any ok response carries token and profile together (both
truthy or both missing/falsy); an ok response carrying exactly one of
them leaves the store with one key set without the other. -/
theorem login_pairing_preserved_balanced :
    ∀ (p : Page) (r : LoginResponse) (rememberChecked : Bool),
      bothOrNeither p.store → balancedLoginResponse r →
      bothOrNeither (handleLoginSubmit p r rememberChecked).store := by
  intro p r b hinv hbal
  cases r with
  | rejected message => exact hinv
  | networkError => exact hinv
  | ok token user redirect =>
      have hb2 : jsTruthy token = jsTruthy user := hbal
      unfold bothOrNeither at hinv ⊢
      cases ht : jsTruthy token <;> cases hu : jsTruthy user
      · cases b <;> simp [handleLoginSubmit, ht, hu, setItem] <;> exact hinv
      · rw [ht, hu] at hb2
        exact Bool.noConfusion hb2
      · rw [ht, hu] at hb2
        exact Bool.noConfusion hb2
      · cases b <;> simp [handleLoginSubmit, ht, hu, setItem]

theorem login_pairing_preserved_balanced_witness :
    bothOrNeither (handleLoginSubmit { store := emptyStore, errors := [], nav := none }
        (LoginResponse.ok (some "tok") (some "usr") none) true).store :=
  login_pairing_preserved_balanced { store := emptyStore, errors := [], nav := none }
    (LoginResponse.ok (some "tok") (some "usr") none) true rfl rfl

/-- Claim C2 counterexample: with a session in the store and the user
confirming the logout prompt, a network-level failure of the logout fetch
leaves `auth_token` in place and performs no navigation, because the
removals sit after the awaited fetch inside the `try`. -/
theorem logout_network_error_blocks_cleanup :
    (handleLogoutClick
        { store := setItem emptyStore "auth_token" "tok", errors := [], nav := none }
        true FetchOutcome.networkError).store "auth_token" = some "tok" ∧
    (handleLogoutClick
        { store := setItem emptyStore "auth_token" "tok", errors := [], nav := none }
        true FetchOutcome.networkError).nav = none := by
  exact ⟨rfl, rfl⟩

/-- Claim C2 (amended): after the user confirms the logout prompt, the
keys `auth_token`, `user_data` and `remember_me` are removed and the page
navigates to the site root whenever the logout request completes — even
with a non-ok server status — but a network-level failure of the request
skips the local cleanup and the navigation. -/
theorem logout_cleanup_on_completed_fetch :
    ∀ (p : Page) (f : FetchOutcome),
      f ≠ FetchOutcome.networkError →
      (handleLogoutClick p true f).store "auth_token" = none ∧
      (handleLogoutClick p true f).store "user_data" = none ∧
      (handleLogoutClick p true f).store "remember_me" = none ∧
      (handleLogoutClick p true f).nav = some "/" := by
  intro p f hf
  cases f with
  | networkError => exact absurd rfl hf
  | resolvedOk =>
      refine ⟨?_, ?_, ?_, rfl⟩ <;> simp [handleLogoutClick, removeItem]
  | resolvedNotOk =>
      refine ⟨?_, ?_, ?_, rfl⟩ <;> simp [handleLogoutClick, removeItem]

theorem logout_cleanup_on_completed_fetch_witness :
    (handleLogoutClick
        { store := setItem (setItem emptyStore "auth_token" "tokW") "user_data" "usrW",
          errors := [], nav := none } true FetchOutcome.resolvedOk).store "auth_token" = none ∧
    (handleLogoutClick
        { store := setItem (setItem emptyStore "auth_token" "tokW") "user_data" "usrW",
          errors := [], nav := none } true FetchOutcome.resolvedOk).store "user_data" = none ∧
    (handleLogoutClick
        { store := setItem (setItem emptyStore "auth_token" "tokW") "user_data" "usrW",
          errors := [], nav := none } true FetchOutcome.resolvedOk).store "remember_me" = none ∧
    (handleLogoutClick
        { store := setItem (setItem emptyStore "auth_token" "tokW") "user_data" "usrW",
          errors := [], nav := none } true FetchOutcome.resolvedOk).nav = some "/" :=
  logout_cleanup_on_completed_fetch
    { store := setItem (setItem emptyStore "auth_token" "tokW") "user_data" "usrW",
      errors := [], nav := none } FetchOutcome.resolvedOk (by decide)

/-- Claim C4 counterexample: a store holding `auth_token` set to the
empty string and a non-empty `user_data` has both keys present, yet
session bootstrap produces the guest state, because the source branches
on JavaScript truthiness and the empty string is falsy. -/
theorem bootstrap_present_empty_token_guest :
    ((setItem (setItem emptyStore "auth_token" "") "user_data" "usr") "auth_token").isSome
        = true ∧
    ((setItem (setItem emptyStore "auth_token" "") "user_data" "usr") "user_data").isSome
        = true ∧
    checkAuthStatus (setItem (setItem emptyStore "auth_token" "") "user_data" "usr")
        = UIState.guest := by
  exact ⟨rfl, rfl, rfl⟩

/-- Claim C4 (amended): session bootstrap puts the UI into the
authenticated state iff both `auth_token` and `user_data` are present
with truthy (non-empty) values, and into the guest state otherwise; a key
present with the empty-string value behaves like an absent key. -/
theorem bootstrap_authenticated_iff_truthy :
    ∀ s : Store,
      (checkAuthStatus s = UIState.authenticated ↔
        (jsTruthy (getItem s "auth_token") = true ∧ jsTruthy (getItem s "user_data") = true)) ∧
      (checkAuthStatus s = UIState.guest ↔
        ¬(jsTruthy (getItem s "auth_token") = true ∧
          jsTruthy (getItem s "user_data") = true)) := by
  intro s
  cases h1 : jsTruthy (getItem s "auth_token") <;> cases h2 : jsTruthy (getItem s "user_data") <;>
    simp [checkAuthStatus, h1, h2]

/-- Claim C10 counterexample: a confirmed logout whose fetch rejects at
the network level removes none of the three keys, so it is not the case
that every confirmed logout removes exactly `auth_token`, `user_data` and
`remember_me`. -/
theorem logout_network_error_removes_nothing :
    (handleLogoutClick
        { store := setItem (setItem emptyStore "remembered_username" "alice") "auth_token" "tok2",
          errors := [], nav := none }
        true FetchOutcome.networkError).store "auth_token" = some "tok2" := by
  exact rfl

/-- Claim C10 (amended): a confirmed logout whose server request
completes removes exactly the keys `auth_token`, `user_data` and
`remember_me` — every other key is left unchanged — and the
`remembered_username` key is left unchanged by every logout path
(confirmed or not, completed or failed request). -/
theorem logout_exact_frame :
    (∀ (p : Page) (f : FetchOutcome),
        f ≠ FetchOutcome.networkError →
        (handleLogoutClick p true f).store "auth_token" = none ∧
        (handleLogoutClick p true f).store "user_data" = none ∧
        (handleLogoutClick p true f).store "remember_me" = none ∧
        ∀ k : String, k ≠ "auth_token" → k ≠ "user_data" → k ≠ "remember_me" →
          (handleLogoutClick p true f).store k = p.store k) ∧
    (∀ (p : Page) (confirmed : Bool) (f : FetchOutcome),
        (handleLogoutClick p confirmed f).store "remembered_username" =
          p.store "remembered_username") := by
  constructor
  · intro p f hf
    cases f with
    | networkError => exact absurd rfl hf
    | resolvedOk =>
        refine ⟨by simp [handleLogoutClick, removeItem],
                by simp [handleLogoutClick, removeItem],
                by simp [handleLogoutClick, removeItem], ?_⟩
        intro k hk1 hk2 hk3
        simp [handleLogoutClick, removeItem, hk1, hk2, hk3]
    | resolvedNotOk =>
        refine ⟨by simp [handleLogoutClick, removeItem],
                by simp [handleLogoutClick, removeItem],
                by simp [handleLogoutClick, removeItem], ?_⟩
        intro k hk1 hk2 hk3
        simp [handleLogoutClick, removeItem, hk1, hk2, hk3]
  · intro p confirmed f
    cases confirmed
    · rfl
    · cases f <;> simp [handleLogoutClick, removeItem]

theorem logout_exact_frame_witness :
    (handleLogoutClick
        { store := setItem emptyStore "remembered_username" "bob", errors := [], nav := none }
        true FetchOutcome.resolvedNotOk).store "remembered_username" =
      ({ store := setItem emptyStore "remembered_username" "bob", errors := [],
         nav := none } : Page).store "remembered_username" :=
  (logout_exact_frame.1
      { store := setItem emptyStore "remembered_username" "bob", errors := [], nav := none }
      FetchOutcome.resolvedNotOk (by decide)).2.2.2 "remembered_username"
    (by decide) (by decide) (by decide)
